import Mathlib

/-
Shallow embedding of signaling-server.js (Real-Time-Checkers).

The server keeps:
  state.rooms           : Map roomId -> { players, isPrivate, createdAt, ready }
  state.waitingPlayers  : queue (array) of connections for public matchmaking
  state.totalGamesPlayed, state.totalPlayersJoined : counters

Connections (WebSocket objects) carry mutable fields displayName, roomId,
lastNewGameReqId, and a readyState; we model a connection by an identifier
(ConnId) and keep its mutable fields in a side table (conns : ConnId -> ConnState),
with readyOpen modelling readyState === OPEN.

Randomness (Math.random().toString(36)) is externalized: an operation that calls
utils.generateRoomId receives the base-36 fractional digit list of the random
value and feeds it to the embedded generateRoomId.
-/

set_option autoImplicit false

namespace Signaling

abbrev ConnId := Nat

/-- Per-connection mutable fields attached to the WebSocket object in the source
(displayName, roomId, lastNewGameReqId) plus liveness (readyState === OPEN). -/
structure ConnState where
  displayName : Option String := none
  roomId : Option String := none
  lastNewGameReqId : Option String := none
  readyOpen : Bool := true
deriving DecidableEq, Repr

/-- A room record: `rooms.create` stores
\x7b players: [firstPlayer], isPrivate, createdAt: Date.now(), ready: \x7bp1:false,p2:false\x7d \x7d. -/
structure Room where
  players : List ConnId
  isPrivate : Bool
  createdAt : Nat
  readyP1 : Bool
  readyP2 : Bool
deriving DecidableEq, Repr

/-- An inbound signaling message for relaySignal: a type tag, a roomId, and the
opaque rest of the payload; the whole object is forwarded verbatim. -/
structure SignalData where
  msgType : String
  roomId : String
  payload : String
deriving DecidableEq, Repr

/-- Outbound messages the server sends. -/
inductive Msg where
  | waiting
  | matchFound (roomId : String) (isCaller : Bool) (opponentName : String)
  | roomInvalid (roomId : String)
  | roomFull (roomId : String)
  | errorMsg (message : String)
  | opponentDisconnected
  | opponentRequestedNewGame (reqId : String)
  | startNewGame (reqId : String)
  | relay (d : SignalData)
deriving DecidableEq, Repr

abbrev RoomsMap := List (String × Room)

/-- JS Map.get: first (unique) entry with the key. -/
def mapGet (m : RoomsMap) (k : String) : Option Room :=
  match m with
  | [] => none
  | (k1, v) :: rest => if k1 = k then some v else mapGet rest k

/-- JS Map.set: replace the entry when the key is present, else append. -/
def mapSet (m : RoomsMap) (k : String) (v : Room) : RoomsMap :=
  match m with
  | [] => [(k, v)]
  | (k1, v1) :: rest => if k1 = k then (k, v) :: rest else (k1, v1) :: mapSet rest k v

/-- JS Map.delete: drop the entry with the key. -/
def mapDelete (m : RoomsMap) (k : String) : RoomsMap :=
  match m with
  | [] => []
  | (k1, v1) :: rest => if k1 = k then rest else (k1, v1) :: mapDelete rest k

/-- The whole mutable server state plus the connection side table and a clock
(Date.now() at room creation time). -/
structure ServerState where
  rooms : RoomsMap
  waitingPlayers : List ConnId
  totalGamesPlayed : Nat
  totalPlayersJoined : Nat
  now : Nat
  conns : ConnId → ConnState

/-- Mutate one connection's fields. -/
def updateConn (s : ServerState) (c : ConnId) (f : ConnState → ConnState) : ServerState :=
  { s with conns := fun i => if i = c then f (s.conns i) else s.conns i }

abbrev Out := List (ConnId × Msg)

/-- JS `v || d` on an optional string: undefined and the empty string are falsy. -/
def jsOrStr (v : Option String) (d : String) : String :=
  match v with
  | some str => if str = "" then d else str
  | none => d

/-- utils.send: delivers only when the target readyState is OPEN; otherwise
swallowed. -/
def send (s : ServerState) (ws : ConnId) (m : Msg) : Out :=
  if (s.conns ws).readyOpen then [(ws, m)] else []

/-- Character table of Number.prototype.toString(36) fractional digits:
the decimal digits (codes 48-57) followed by the lowercase letters (97-122). -/
def base36Chars : List Char :=
  (List.range 10).map (fun n => Char.ofNat (48 + n)) ++
  (List.range 26).map (fun n => Char.ofNat (97 + n))

/-- The characters the spec's `[A-Za-z0-9]` format allows: decimal digits,
uppercase letters (codes 65-90), lowercase letters (the generator only ever
produces the digits and uppercase letters among them). -/
def alnumChars : List Char :=
  (List.range 10).map (fun n => Char.ofNat (48 + n)) ++
  (List.range 26).map (fun n => Char.ofNat (65 + n)) ++
  (List.range 26).map (fun n => Char.ofNat (97 + n))

/-- String.prototype.toUpperCase on one character (ASCII range suffices for the
base-36 alphabet). -/
def toUpperChar (c : Char) : Char :=
  if 97 ≤ c.toNat ∧ c.toNat ≤ 122 then Char.ofNat (c.toNat - 32) else c

/-- Math.random().toString(36): the character list "0.d1d2..." for a value with
fractional base-36 digits d1 d2 ... (JS prints no trailing zero digits), and
just "0" when the value is 0. -/
def randToString36 (digits : List Char) : List Char :=
  if digits = [] then ['0'] else '0' :: '.' :: digits

/-- utils.generateRoomId: Math.random().toString(36).substring(2, 10).toUpperCase(). -/
def generateRoomId (digits : List Char) : String :=
  String.mk (((randToString36 digits).drop 2).take 8 |>.map toUpperChar)

/-- utils.isValidRoomId: typeof string and 4 <= length <= 12 (length only). -/
def isValidRoomId (roomId : Option String) : Bool :=
  match roomId with
  | some str => decide (4 ≤ str.length) && decide (str.length ≤ 12)
  | none => false

/-- Spec-side id format (modelled from the spec's words, for comparison with the
source's isValidRoomId): a string of 4-12 characters matching [A-Za-z0-9]. -/
def specIdFormat (str : String) : Bool :=
  decide (4 ≤ str.length) && decide (str.length ≤ 12) &&
    str.data.all (fun c => decide (c ∈ alnumChars))

/-- utils.getOpponent: looks up the room by the given roomId and returns the
first player different from ws. -/
def getOpponent (s : ServerState) (ws : ConnId) (roomId : String) : Option ConnId :=
  match mapGet s.rooms roomId with
  | none => none
  | some room => room.players.find? (fun p => p != ws)

/-- The room.players.forEach body of utils.broadcastToRoom. -/
def sendEach (s : ServerState) (m : Msg) (excludeWs : Option ConnId) : List ConnId → Out
  | [] => []
  | p :: rest => (if some p ≠ excludeWs then send s p m else []) ++ sendEach s m excludeWs rest

/-- utils.broadcastToRoom (excludeWs defaults to null = none). -/
def broadcastToRoom (s : ServerState) (roomId : String) (m : Msg) (excludeWs : Option ConnId) : Out :=
  match mapGet s.rooms roomId with
  | none => []
  | some room => sendEach s m excludeWs room.players

/-- The matchFound forEach loop of rooms.join (also textually repeated inside
matchmaking.joinPublicQueue): for each (player, index), find the other player
and send matchFound with isCaller = (index === 0). -/
def matchFoundLoop (s : ServerState) (roomId : String) (players : List ConnId) :
    Nat → List ConnId → Out
  | _, [] => []
  | i, p :: rest =>
    (send s p (Msg.matchFound roomId (i == 0)
        (match players.find? (fun q => q != p) with
         | some o => jsOrStr ((s.conns o).displayName) "Opponent"
         | none => "Opponent"))) ++ matchFoundLoop s roomId players (i + 1) rest

def matchFoundMsgs (s : ServerState) (roomId : String) (players : List ConnId) : Out :=
  matchFoundLoop s roomId players 0 players

/-- rooms.create. -/
def roomsCreate (s : ServerState) (roomId : String) (firstPlayer : ConnId) (isPrivate : Bool) :
    ServerState :=
  let newRoom : Room :=
    { players := [firstPlayer], isPrivate := isPrivate, createdAt := s.now,
      readyP1 := false, readyP2 := false }
  let s1 := { s with rooms := mapSet s.rooms roomId newRoom }
  updateConn s1 firstPlayer (fun c => { c with roomId := some roomId })

/-- rooms.join: returns the new state, the emitted messages, and the boolean
return value of the source function. -/
def roomsJoin (s : ServerState) (roomId : String) (player : ConnId) :
    ServerState × Out × Bool :=
  match mapGet s.rooms roomId with
  | none => (s, [], false)
  | some room =>
    if 2 ≤ room.players.length then
      (s, send s player (Msg.errorMsg "Room is full"), false)
    else
      let room1 := { room with players := room.players ++ [player] }
      let s1 := { s with rooms := mapSet s.rooms roomId room1 }
      let s2 := updateConn s1 player (fun c => { c with roomId := some roomId })
      (s2, matchFoundMsgs s2 roomId room1.players, true)

/-- rooms.remove. -/
def roomsRemove (s : ServerState) (roomId : String) : ServerState :=
  { s with rooms := mapDelete s.rooms roomId }

/-- rooms.handleDisconnect: bail out when ws.roomId is unset (or the falsy
empty string); else notify a live opponent and remove the room. -/
def handleDisconnect (s : ServerState) (ws : ConnId) : ServerState × Out :=
  match (s.conns ws).roomId with
  | none => (s, [])
  | some rid =>
    if rid = "" then (s, [])
    else
      match mapGet s.rooms rid with
      | none => (s, [])
      | some room =>
        let out :=
          match room.players.find? (fun p => p != ws) with
          | some opponent =>
            if (s.conns opponent).readyOpen then send s opponent Msg.opponentDisconnected
            else []
          | none => []
        (roomsRemove s rid, out)

/-- JS Array.prototype.indexOf, as an optional index. -/
def indexOfAux (ws : ConnId) : List ConnId → Nat → Option Nat
  | [], _ => none
  | p :: rest, i => if p == ws then some i else indexOfAux ws rest (i + 1)

def jsIndexOf (l : List ConnId) (ws : ConnId) : Option Nat :=
  indexOfAux ws l 0

/-- matchmaking.joinPublicQueue.  The generated room id comes from the random
digits parameter.  First purges non-open queue entries; then either pairs with
the queue head (create room, tag default names, rooms.join, and re-send the
matchFound pair manually) or appends to the queue and acknowledges waiting. -/
def joinPublicQueue (s : ServerState) (ws : ConnId) (digits : List Char) :
    ServerState × Out :=
  match s.waitingPlayers.filter (fun p => (s.conns p).readyOpen) with
  | [] =>
    let s1 := { s with waitingPlayers := [ws] }
    (s1, send s1 ws Msg.waiting)
  | opponent :: rest =>
    let roomId := generateRoomId digits
    let s1 := { s with waitingPlayers := rest }
    let s2 := roomsCreate s1 roomId opponent false
    let s3 := updateConn s2 opponent
      (fun c => { c with displayName := some (jsOrStr c.displayName "Player") })
    let s4 := updateConn s3 ws
      (fun c => { c with displayName := some (jsOrStr c.displayName "Player") })
    let jr := roomsJoin s4 roomId ws
    let s5 := jr.1
    let out2 :=
      match mapGet s5.rooms roomId with
      | some room =>
        if room.players.length == 2 then matchFoundMsgs s5 roomId room.players else []
      | none => []
    (s5, jr.2.1 ++ out2)

/-- matchmaking.removeFromQueue: splice out the first occurrence when present. -/
def removeFromQueue (s : ServerState) (ws : ConnId) : ServerState :=
  match jsIndexOf s.waitingPlayers ws with
  | some _ => { s with waitingPlayers := s.waitingPlayers.erase ws }
  | none => s

/-- The room.players.forEach clearing lastNewGameReqId. -/
def clearReqIds (s : ServerState) (players : List ConnId) : ServerState :=
  players.foldl (fun acc p => updateConn acc p (fun c => { c with lastNewGameReqId := none })) s

/-- gameActions.handleNewGameRequest.  data supplies roomId and an optional
reqId; digits feed generateRoomId when reqId is absent (or the falsy ""). -/
def handleNewGameRequest (s : ServerState) (ws : ConnId) (roomId : String)
    (reqId : Option String) (digits : List Char) : ServerState × Out :=
  match mapGet s.rooms roomId with
  | none => (s, [])
  | some room =>
    if room.players.length ≠ 2 then (s, [])
    else
      match jsIndexOf room.players ws with
      | none => (s, [])
      | some playerIndex =>
        let requestId := jsOrStr reqId (generateRoomId digits)
        let room1 :=
          if playerIndex == 0 then { room with readyP1 := true }
          else { room with readyP2 := true }
        let s1 := { s with rooms := mapSet s.rooms roomId room1 }
        let s2 := updateConn s1 ws (fun c => { c with lastNewGameReqId := some requestId })
        let opponent := getOpponent s2 ws roomId
        if room1.readyP1 && room1.readyP2 then
          let room2 := { room1 with readyP1 := false, readyP2 := false }
          let s3 :=
            { s2 with
              rooms := mapSet s2.rooms roomId room2
              totalGamesPlayed := s2.totalGamesPlayed + 1 }
          let out := broadcastToRoom s3 roomId (Msg.startNewGame requestId) none
          (clearReqIds s3 room2.players, out)
        else
          let out :=
            match opponent with
            | some opp =>
              if (s2.conns opp).readyOpen then
                send s2 opp (Msg.opponentRequestedNewGame requestId)
              else []
            | none => []
          (s2, out)

/-- gameActions.relaySignal: looks the opponent up by the roomId FIELD OF THE
MESSAGE and forwards the whole inbound data object when the opponent is live. -/
def relaySignal (s : ServerState) (ws : ConnId) (d : SignalData) : Out :=
  match getOpponent s ws d.roomId with
  | some opponent =>
    if (s.conns opponent).readyOpen then send s opponent (Msg.relay d) else []
  | none => []

/-- handlers.createPrivate: sets the display name, validates the id, rejects a
duplicate id, else creates the private room and acknowledges waiting.
The roomId parameter is optional because the field may be absent from the
message (isValidRoomId's typeof check rejects that case, so the inner none
branch is unreachable). -/
def createPrivateHandler (s : ServerState) (ws : ConnId) (displayName : Option String)
    (roomId : Option String) : ServerState × Out :=
  let s0 := updateConn s ws
    (fun c => { c with displayName := some (jsOrStr displayName "Player") })
  if isValidRoomId roomId then
    match roomId with
    | none => (s0, [])
    | some rid =>
      if (mapGet s0.rooms rid).isSome then
        (s0, send s0 ws (Msg.errorMsg "Room ID already exists"))
      else
        let s1 := roomsCreate s0 rid ws true
        (s1, send s1 ws Msg.waiting)
  else
    (s0, send s0 ws (Msg.errorMsg "Invalid room ID format"))

/-- handlers.joinPrivate: sets the display name, validates the id, reports
roomInvalid / roomFull, else delegates to rooms.join. -/
def joinPrivateHandler (s : ServerState) (ws : ConnId) (displayName : Option String)
    (roomId : Option String) : ServerState × Out :=
  let s0 := updateConn s ws
    (fun c => { c with displayName := some (jsOrStr displayName "Player") })
  if isValidRoomId roomId then
    match roomId with
    | none => (s0, [])
    | some rid =>
      match mapGet s0.rooms rid with
      | none => (s0, send s0 ws (Msg.roomInvalid rid))
      | some room =>
        if 2 ≤ room.players.length then
          (s0, send s0 ws (Msg.roomFull rid))
        else
          let jr := roomsJoin s0 rid ws
          (jr.1, jr.2.1)
  else
    (s0, send s0 ws (Msg.errorMsg "Invalid room ID format"))

/-- The 24-hour max age of the cleanup interval. -/
def maxAge : Nat := 24 * 60 * 60 * 1000

/-- One sweep of the cleanup interval: keep a room only when it has a live
player and is not older than maxAge. -/
def cleanupSweep (s : ServerState) (now : Nat) : ServerState :=
  { s with rooms := s.rooms.filter (fun e =>
      !(!(e.2.players.any (fun p => (s.conns p).readyOpen)) ||
        decide (maxAge < now - e.2.createdAt))) }

/-- A public-matchmaking queue operation: a joinPublic arrival (with its random
digits) or a queue removal. -/
inductive QOp where
  | enq (c : ConnId) (digits : List Char)
  | deq (c : ConnId)

def applyQOp (s : ServerState) : QOp → ServerState
  | .enq c digits => (joinPublicQueue s c digits).1
  | .deq c => removeFromQueue s c

def runQOps (s : ServerState) : List QOp → ServerState
  | [] => s
  | op :: ops => runQOps (applyQOp s op) ops

/-- A connection record that is live and has no fields set yet. -/
def connOpen : ConnState :=
  { displayName := none, roomId := none, lastNewGameReqId := none, readyOpen := true }

/-- The server's initial state, with every modelled connection live. -/
def emptyState : ServerState :=
  { rooms := [], waitingPlayers := [], totalGamesPlayed := 0, totalPlayersJoined := 0,
    now := 0, conns := fun _ => connOpen }

end Signaling

namespace Signaling

/-! ### Basic facts about the rooms map and state updates -/

@[simp] theorem updateConn_rooms (s : ServerState) (c : ConnId) (f : ConnState → ConnState) :
    (updateConn s c f).rooms = s.rooms := rfl

@[simp] theorem updateConn_waitingPlayers (s : ServerState) (c : ConnId) (f : ConnState → ConnState) :
    (updateConn s c f).waitingPlayers = s.waitingPlayers := rfl

@[simp] theorem updateConn_totalGamesPlayed (s : ServerState) (c : ConnId) (f : ConnState → ConnState) :
    (updateConn s c f).totalGamesPlayed = s.totalGamesPlayed := rfl

@[simp] theorem updateConn_now (s : ServerState) (c : ConnId) (f : ConnState → ConnState) :
    (updateConn s c f).now = s.now := rfl

theorem updateConn_conns_self (s : ServerState) (c : ConnId) (f : ConnState → ConnState) :
    (updateConn s c f).conns c = f (s.conns c) := by
  simp [updateConn]

theorem updateConn_conns_ne (s : ServerState) (c c1 : ConnId) (f : ConnState → ConnState)
    (h : c1 ≠ c) : (updateConn s c f).conns c1 = s.conns c1 := by
  simp [updateConn, h]

theorem mapGet_mapSet_self (m : RoomsMap) (k : String) (v : Room) :
    mapGet (mapSet m k v) k = some v := by
  induction m with
  | nil => simp [mapGet, mapSet]
  | cons e rest ih =>
    obtain ⟨k1, v1⟩ := e
    by_cases h : k1 = k
    · simp [mapGet, mapSet, h]
    · simp [mapGet, mapSet, h, ih]

theorem mapGet_mapSet_ne (m : RoomsMap) (k k1 : String) (v : Room) (h : k1 ≠ k) :
    mapGet (mapSet m k v) k1 = mapGet m k1 := by
  induction m with
  | nil => simp [mapGet, mapSet, Ne.symm h]
  | cons e rest ih =>
    obtain ⟨k2, v2⟩ := e
    by_cases h2 : k2 = k
    · subst h2
      simp [mapGet, mapSet, Ne.symm h]
    · simp [mapGet, mapSet, h2, ih]

theorem mapGet_eq_none_of_not_mem (m : RoomsMap) (k : String)
    (h : k ∉ m.map Prod.fst) : mapGet m k = none := by
  induction m with
  | nil => rfl
  | cons e rest ih =>
    obtain ⟨k1, v1⟩ := e
    simp only [List.map_cons, List.mem_cons] at h
    push_neg at h
    simp [mapGet, Ne.symm h.1, ih h.2]

theorem mapSet_eq_self (m : RoomsMap) (k : String) (v : Room)
    (h : mapGet m k = some v) : mapSet m k v = m := by
  induction m with
  | nil => simp [mapGet] at h
  | cons e rest ih =>
    obtain ⟨k1, v1⟩ := e
    by_cases hk : k1 = k
    · subst hk
      have h1 : v1 = v := by simpa [mapGet] using h
      simp [mapSet, h1]
    · simp only [mapGet, if_neg hk] at h
      simp [mapSet, hk, ih h]

theorem mapSet_keys_of_get_some (m : RoomsMap) (k : String) (v w : Room)
    (h : mapGet m k = some w) : (mapSet m k v).map Prod.fst = m.map Prod.fst := by
  induction m with
  | nil => simp [mapGet] at h
  | cons e rest ih =>
    obtain ⟨k1, v1⟩ := e
    by_cases hk : k1 = k
    · subst hk
      simp [mapSet]
    · simp only [mapGet, if_neg hk] at h
      simp [mapSet, hk, ih h]

theorem mapGet_mapDelete_self (m : RoomsMap) (k : String)
    (hnd : (m.map Prod.fst).Nodup) : mapGet (mapDelete m k) k = none := by
  induction m with
  | nil => rfl
  | cons e rest ih =>
    obtain ⟨k1, v1⟩ := e
    simp only [List.map_cons, List.nodup_cons] at hnd
    by_cases hk : k1 = k
    · subst hk
      rw [show mapDelete ((k1, v1) :: rest) k1 = rest from by simp [mapDelete]]
      exact mapGet_eq_none_of_not_mem rest k1 (by simpa using hnd.1)
    · simp [mapDelete, hk, mapGet, ih hnd.2]

theorem mapGet_mapDelete_ne (m : RoomsMap) (k k1 : String) (h : k1 ≠ k) :
    mapGet (mapDelete m k) k1 = mapGet m k1 := by
  induction m with
  | nil => rfl
  | cons e rest ih =>
    obtain ⟨k2, v2⟩ := e
    by_cases h2 : k2 = k
    · subst h2
      simp [mapDelete, mapGet, Ne.symm h]
    · simp [mapDelete, mapGet, h2, ih]

theorem mapGet_filter_none (m : RoomsMap) (k : String) (P : String × Room → Bool)
    (h : k ∉ m.map Prod.fst) : mapGet (m.filter P) k = none := by
  apply mapGet_eq_none_of_not_mem
  intro hmem
  apply h
  simp only [List.mem_map] at hmem ⊢
  obtain ⟨e, he, hek⟩ := hmem
  exact ⟨e, (List.mem_filter.mp he).1, hek⟩

theorem mapGet_filter (m : RoomsMap) (k : String) (v : Room) (P : String × Room → Bool)
    (hnd : (m.map Prod.fst).Nodup) (h : mapGet m k = some v) :
    mapGet (m.filter P) k = if P (k, v) then some v else none := by
  induction m with
  | nil => simp [mapGet] at h
  | cons e rest ih =>
    obtain ⟨k1, v1⟩ := e
    simp only [List.map_cons, List.nodup_cons] at hnd
    by_cases hk : k1 = k
    · subst hk
      have h1 : v1 = v := by simpa [mapGet] using h
      subst h1
      by_cases hp : P (k1, v1)
      · simp [List.filter, hp, mapGet]
      · rw [show ((k1, v1) :: rest).filter P = rest.filter P from by
          simp [List.filter, hp]]
        rw [if_neg (by simp [hp])]
        exact mapGet_filter_none rest k1 P (by simpa using hnd.1)
    · simp only [mapGet, if_neg hk] at h
      by_cases hp : P (k1, v1)
      · simp [List.filter, hp, mapGet, hk, ih hnd.2 h]
      · simp [List.filter, hp, ih hnd.2 h]

end Signaling

namespace Signaling

/-! ### Queue behaviour of the matchmaking operations -/

theorem roomsCreate_waitingPlayers (s : ServerState) (rid : String) (p : ConnId) (b : Bool) :
    (roomsCreate s rid p b).waitingPlayers = s.waitingPlayers := rfl

theorem roomsCreate_rooms (s : ServerState) (rid : String) (p : ConnId) (b : Bool) :
    (roomsCreate s rid p b).rooms =
      mapSet s.rooms rid
        { players := [p], isPrivate := b, createdAt := s.now,
          readyP1 := false, readyP2 := false } := rfl

theorem roomsCreate_now (s : ServerState) (rid : String) (p : ConnId) (b : Bool) :
    (roomsCreate s rid p b).now = s.now := rfl

theorem roomsJoin_fst_waitingPlayers (s : ServerState) (rid : String) (p : ConnId) :
    (roomsJoin s rid p).1.waitingPlayers = s.waitingPlayers := by
  unfold roomsJoin
  cases mapGet s.rooms rid with
  | none => rfl
  | some room =>
    by_cases h : 2 ≤ room.players.length
    · simp [h]
    · simp [h]

theorem joinPublicQueue_waitingPlayers (s : ServerState) (ws : ConnId) (digits : List Char) :
    (joinPublicQueue s ws digits).1.waitingPlayers =
      match s.waitingPlayers.filter (fun p => (s.conns p).readyOpen) with
      | [] => [ws]
      | _ :: rest => rest := by
  unfold joinPublicQueue
  cases hf : s.waitingPlayers.filter (fun p => (s.conns p).readyOpen) with
  | nil => rfl
  | cons opp rest =>
    simp only [roomsJoin_fst_waitingPlayers, updateConn_waitingPlayers,
      roomsCreate_waitingPlayers]

theorem applyQOp_nodup (s : ServerState) (op : QOp) (h : s.waitingPlayers.Nodup) :
    (applyQOp s op).waitingPlayers.Nodup := by
  cases op with
  | enq c digits =>
    rw [applyQOp, joinPublicQueue_waitingPlayers]
    cases hf : s.waitingPlayers.filter (fun p => (s.conns p).readyOpen) with
    | nil => simp
    | cons opp rest =>
      have hnd : (s.waitingPlayers.filter (fun p => (s.conns p).readyOpen)).Nodup :=
        h.filter _
      rw [hf] at hnd
      exact hnd.of_cons
  | deq c =>
    rw [applyQOp, removeFromQueue]
    cases jsIndexOf s.waitingPlayers c with
    | none => exact h
    | some i => exact h.erase c

theorem runQOps_nodup (ops : List QOp) (s : ServerState) (h : s.waitingPlayers.Nodup) :
    (runQOps s ops).waitingPlayers.Nodup := by
  induction ops generalizing s with
  | nil => exact h
  | cons op ops ih => exact ih _ (applyQOp_nodup s op h)

theorem joinPublicQueue_pair_room (s : ServerState) (ws opp : ConnId) (rest : List ConnId)
    (digits : List Char)
    (hf : s.waitingPlayers.filter (fun p => (s.conns p).readyOpen) = opp :: rest) :
    mapGet (joinPublicQueue s ws digits).1.rooms (generateRoomId digits) =
      some { players := [opp, ws], isPrivate := false, createdAt := s.now,
             readyP1 := false, readyP2 := false } := by
  unfold joinPublicQueue
  rw [hf]
  have hget : mapGet
      (mapSet s.rooms (generateRoomId digits)
        { players := [opp], isPrivate := false, createdAt := s.now,
          readyP1 := false, readyP2 := false }) (generateRoomId digits) =
      some { players := [opp], isPrivate := false, createdAt := s.now,
             readyP1 := false, readyP2 := false } :=
    mapGet_mapSet_self _ _ _
  simp only [roomsJoin, updateConn_rooms, roomsCreate_rooms, roomsCreate_now,
    updateConn_now, hget]
  simp only [List.length_cons, List.length_nil, Nat.reduceAdd]
  rw [if_neg (by decide)]
  simp only [updateConn_rooms]
  exact mapGet_mapSet_self _ _ _

end Signaling

namespace Signaling

theorem jsOrStr_player_opponent (v : Option String) :
    jsOrStr (some (jsOrStr v "Player")) "Opponent" = jsOrStr v "Player" := by
  cases v with
  | none => rfl
  | some str =>
    by_cases h : str = ""
    · simp [jsOrStr, h]
    · simp [jsOrStr, h]

theorem matchFoundMsgs_pair (s : ServerState) (rid : String) (a b : ConnId) (hab : a ≠ b) :
    matchFoundMsgs s rid [a, b] =
      send s a (Msg.matchFound rid true (jsOrStr ((s.conns b).displayName) "Opponent")) ++
      send s b (Msg.matchFound rid false (jsOrStr ((s.conns a).displayName) "Opponent")) := by
  have hb1 : (b != a) = true := by simp [Ne.symm hab]
  have hb2 : (a != b) = true := by simp [hab]
  simp [matchFoundMsgs, matchFoundLoop, List.find?, hb1, hb2]

theorem matchFoundMsgs_same (s : ServerState) (rid : String) (a : ConnId) :
    matchFoundMsgs s rid [a, a] =
      send s a (Msg.matchFound rid true "Opponent") ++
      send s a (Msg.matchFound rid false "Opponent") := by
  simp [matchFoundMsgs, matchFoundLoop, List.find?]

theorem joinPublicQueue_pair_out (s : ServerState) (ws opp : ConnId) (rest : List ConnId)
    (digits : List Char)
    (hf : s.waitingPlayers.filter (fun p => (s.conns p).readyOpen) = opp :: rest)
    (hws : (s.conns ws).readyOpen = true)
    (hne : opp ≠ ws) :
    (joinPublicQueue s ws digits).2 =
      [(opp, Msg.matchFound (generateRoomId digits) true
          (jsOrStr ((s.conns ws).displayName) "Player")),
       (ws, Msg.matchFound (generateRoomId digits) false
          (jsOrStr ((s.conns opp).displayName) "Player")),
       (opp, Msg.matchFound (generateRoomId digits) true
          (jsOrStr ((s.conns ws).displayName) "Player")),
       (ws, Msg.matchFound (generateRoomId digits) false
          (jsOrStr ((s.conns opp).displayName) "Player"))] := by
  have hopp : (s.conns opp).readyOpen = true := by
    have hmem : opp ∈ s.waitingPlayers.filter (fun p => (s.conns p).readyOpen) := by
      rw [hf]; exact List.mem_cons_self _ _
    simpa using (List.mem_filter.mp hmem).2
  have hne2 : ws ≠ opp := Ne.symm hne
  simp only [joinPublicQueue, hf]
  simp only [roomsJoin, roomsCreate, updateConn_rooms, mapGet_mapSet_self]
  simp only [List.length_cons, List.length_nil, Nat.reduceAdd]
  rw [if_neg (by decide)]
  simp only [mapGet_mapSet_self, List.cons_append, List.nil_append, List.length_cons,
    List.length_nil, Nat.reduceAdd, beq_self_eq_true, if_true]
  rw [matchFoundMsgs_pair _ _ _ _ hne]
  simp [send, updateConn, mapGet_mapSet_self, matchFoundMsgs_pair, hne, hne2, hws, hopp,
    jsOrStr_player_opponent]

end Signaling

namespace Signaling

/-! ### Claims C1 and C9: public matchmaking -/

/-- A state whose public queue holds connection 0 (live, no fields set). -/
def sC1w : ServerState := { emptyState with waitingPlayers := [0] }

/-- Claim C1 (amended): over every sequence of enqueuePublic/dequeue operations the
matchmaking queue never contains the same connection twice; and a session created by
pairing in enqueuePublic always has exactly the two participants
[queue head, new arrival] — which are distinct whenever the new arrival differs from
the dequeued queue head.  (As stated the claim is false: when a connection
re-enqueues while it is itself the sole queued player, the code pairs it with
itself, producing a session whose two participants are the same connection; see the
counterexample.) -/
theorem claim_C1 (s : ServerState) (ops : List QOp) (h : s.waitingPlayers.Nodup) :
    (runQOps s ops).waitingPlayers.Nodup ∧
    (∀ (ws opp : ConnId) (rest : List ConnId) (digits : List Char),
      s.waitingPlayers.filter (fun p => (s.conns p).readyOpen) = opp :: rest →
      opp ≠ ws →
      mapGet (joinPublicQueue s ws digits).1.rooms (generateRoomId digits) =
        some { players := [opp, ws], isPrivate := false, createdAt := s.now,
               readyP1 := false, readyP2 := false } ∧
      ([opp, ws] : List ConnId).Nodup) := by
  refine ⟨runQOps_nodup ops s h, ?_⟩
  intro ws opp rest digits hf hne
  refine ⟨joinPublicQueue_pair_room s ws opp rest digits hf, ?_⟩
  simp [hne]

/-- Claim C1, counterexample to the claim as stated: connection 0 calls
joinPublic twice in a row starting from the empty server.  The first call queues
it; the second call pairs it with itself, creating a public session whose two
participants are both connection 0 — not two distinct participants. -/
theorem claim_C1_counterexample :
    mapGet ((joinPublicQueue (joinPublicQueue emptyState 0
        ['a', 'a', 'a', 'a', '1', '1', '1', '1']).1 0
        ['b', 'b', 'b', 'b', '2', '2', '2', '2']).1).rooms "BBBB2222" =
      some { players := [0, 0], isPrivate := false, createdAt := 0,
             readyP1 := false, readyP2 := false } ∧
    ¬ ([0, 0] : List ConnId).Nodup := by
  constructor
  · decide
  · decide

/-- Claim C1, witness: the amended theorem applied to a concrete state (queue
holding connection 0, connection 1 arriving). -/
theorem claim_C1_witness :
    (runQOps sC1w [QOp.enq 1 ['a', 'b', 'c', 'd'], QOp.deq 0]).waitingPlayers.Nodup ∧
    (mapGet (joinPublicQueue sC1w 1 ['a', 'b', 'c', 'd']).1.rooms
        (generateRoomId ['a', 'b', 'c', 'd']) =
      some { players := [0, 1], isPrivate := false, createdAt := sC1w.now,
             readyP1 := false, readyP2 := false } ∧
     ([0, 1] : List ConnId).Nodup) := by
  refine ⟨(claim_C1 sC1w [QOp.enq 1 ['a', 'b', 'c', 'd'], QOp.deq 0] (by decide)).1, ?_⟩
  exact (claim_C1 sC1w [] (by decide)).2 1 0 [] ['a', 'b', 'c', 'd'] (by decide) (by decide)

/-- Claim C9 (confirmed): when enqueuePublic pairs a new arrival with a queued
opponent, each of the two participants is sent matchFound twice — once by
rooms.join and once by the explicit re-send loop — with the same roomId and
isCaller values (and the same opponentName) in both copies: isCaller is true
exactly for the dequeued opponent, who occupies the first participant slot. -/
theorem claim_C9 (s : ServerState) (ws opp : ConnId) (digits : List Char)
    (hq : s.waitingPlayers = [opp])
    (hopp : (s.conns opp).readyOpen = true)
    (hws : (s.conns ws).readyOpen = true)
    (hne : opp ≠ ws) :
    (joinPublicQueue s ws digits).2 =
      [(opp, Msg.matchFound (generateRoomId digits) true
          (jsOrStr ((s.conns ws).displayName) "Player")),
       (ws, Msg.matchFound (generateRoomId digits) false
          (jsOrStr ((s.conns opp).displayName) "Player")),
       (opp, Msg.matchFound (generateRoomId digits) true
          (jsOrStr ((s.conns ws).displayName) "Player")),
       (ws, Msg.matchFound (generateRoomId digits) false
          (jsOrStr ((s.conns opp).displayName) "Player"))] := by
  have hf : s.waitingPlayers.filter (fun p => (s.conns p).readyOpen) = opp :: [] := by
    rw [hq]; simp [hopp]
  exact joinPublicQueue_pair_out s ws opp [] digits hf hws hne

/-- Claim C9, witness: the double matchFound on a concrete pairing. -/
theorem claim_C9_witness :
    (joinPublicQueue sC1w 1 ['a', 'b', 'c', 'd']).2 =
      [(0, Msg.matchFound (generateRoomId ['a', 'b', 'c', 'd']) true
          (jsOrStr ((sC1w.conns 1).displayName) "Player")),
       (1, Msg.matchFound (generateRoomId ['a', 'b', 'c', 'd']) false
          (jsOrStr ((sC1w.conns 0).displayName) "Player")),
       (0, Msg.matchFound (generateRoomId ['a', 'b', 'c', 'd']) true
          (jsOrStr ((sC1w.conns 1).displayName) "Player")),
       (1, Msg.matchFound (generateRoomId ['a', 'b', 'c', 'd']) false
          (jsOrStr ((sC1w.conns 0).displayName) "Player"))] :=
  claim_C9 sC1w 1 0 ['a', 'b', 'c', 'd'] rfl (by decide) (by decide) (by decide)

end Signaling

namespace Signaling

/-! ### Claim C2: the relay router -/

/-- A room held by connections 0 and 1. -/
def roomAB : Room :=
  { players := [0, 1], isPrivate := true, createdAt := 0, readyP1 := false, readyP2 := false }

/-- A state containing only roomAB under id "ROOMAB"; every connection is live. -/
def sC2 : ServerState := { emptyState with rooms := [("ROOMAB", roomAB)] }

/-- A concrete offer message addressed to "ROOMAB". -/
def dOffer : SignalData := { msgType := "offer", roomId := "ROOMAB", payload := "sdp" }

/-- Claim C2 (amended): relaySignal resolves the session named by the roomId
field of the message (not the sender's own session).  When the sender is a
participant of that session (two distinct participants a, b), the message is
forwarded unmodified to the other participant exactly when that participant's
transport is live, and otherwise silently dropped with nothing sent back to the
sender; every delivery from such a relay goes to the other participant of the
named session. -/
theorem claim_C2 (s : ServerState) (a b : ConnId) (d : SignalData) (room : Room)
    (hroom : mapGet s.rooms d.roomId = some room)
    (hp : room.players = [a, b]) (hab : a ≠ b) :
    (relaySignal s a d = if (s.conns b).readyOpen then [(b, Msg.relay d)] else []) ∧
    (relaySignal s b d = if (s.conns a).readyOpen then [(a, Msg.relay d)] else []) ∧
    (∀ pr ∈ relaySignal s a d, pr = (b, Msg.relay d)) ∧
    (∀ pr ∈ relaySignal s b d, pr = (a, Msg.relay d)) := by
  have hba : (b != a) = true := by simp [Ne.symm hab]
  have hab1 : (a != b) = true := by simp [hab]
  have h1 : relaySignal s a d = if (s.conns b).readyOpen then [(b, Msg.relay d)] else [] := by
    simp only [relaySignal, getOpponent, hroom, hp, List.find?, bne_self_eq_false, hba]
    by_cases hb : (s.conns b).readyOpen
    · simp [send, hb]
    · simp [send, hb]
  have h2 : relaySignal s b d = if (s.conns a).readyOpen then [(a, Msg.relay d)] else [] := by
    simp only [relaySignal, getOpponent, hroom, hp, List.find?, hab1]
    by_cases ha : (s.conns a).readyOpen
    · simp [send, ha]
    · simp [send, ha]
  refine ⟨h1, h2, ?_, ?_⟩
  · intro pr hpr
    rw [h1] at hpr
    by_cases hb : (s.conns b).readyOpen
    · simp [hb] at hpr; simp [hpr]
    · simp [hb] at hpr
  · intro pr hpr
    rw [h2] at hpr
    by_cases ha : (s.conns a).readyOpen
    · simp [ha] at hpr; simp [hpr]
    · simp [ha] at hpr

/-- Claim C2, counterexample to the claim as stated: connection 2 is in no
session at all (its roomId field is unset), yet a relay it sends naming
"ROOMAB" is delivered to connection 0 — a connection outside the sender's
(nonexistent) session.  relaySignal routes by the message's roomId field, not by
the sender's own session. -/
theorem claim_C2_counterexample :
    (sC2.conns 2).roomId = none ∧
    relaySignal sC2 2 dOffer = [(0, Msg.relay dOffer)] := by
  constructor
  · decide
  · decide

/-- Claim C2, witness: the amended theorem at a concrete two-participant room. -/
theorem claim_C2_witness :
    relaySignal sC2 0 dOffer = if (sC2.conns 1).readyOpen then [(1, Msg.relay dOffer)] else [] :=
  (claim_C2 sC2 0 1 dOffer roomAB (by decide) rfl (by decide)).1

/-! ### Claim C3: createPrivate -/

/-- Claim C3 (amended): createPrivate fails with the InvalidId error exactly when
the id fails the source's format check — which tests only that the id is a
string of 4 to 12 characters, with no [A-Za-z0-9] character-class restriction
(the corrected part; see the counterexample, which the code accepts although it
fails the spec's character class); fails with the IdInUse error when a session
with that id already exists, leaving the session table completely unchanged;
and otherwise creates a session with isPrivate = true and exactly one
participant, touches no other session, and acknowledges the creator with
waiting. -/
theorem claim_C3 (s : ServerState) (ws : ConnId) (dn roomId : Option String)
    (hopen : (s.conns ws).readyOpen = true) :
    (isValidRoomId roomId = false →
      (createPrivateHandler s ws dn roomId).1.rooms = s.rooms ∧
      (createPrivateHandler s ws dn roomId).2 = [(ws, Msg.errorMsg "Invalid room ID format")]) ∧
    (∀ rid : String, roomId = some rid → isValidRoomId roomId = true →
      ((mapGet s.rooms rid).isSome = true →
        (createPrivateHandler s ws dn roomId).1.rooms = s.rooms ∧
        (createPrivateHandler s ws dn roomId).2 = [(ws, Msg.errorMsg "Room ID already exists")]) ∧
      (mapGet s.rooms rid = none →
        mapGet (createPrivateHandler s ws dn roomId).1.rooms rid =
          some { players := [ws], isPrivate := true, createdAt := s.now,
                 readyP1 := false, readyP2 := false } ∧
        (∀ k : String, k ≠ rid →
          mapGet (createPrivateHandler s ws dn roomId).1.rooms k = mapGet s.rooms k) ∧
        (createPrivateHandler s ws dn roomId).2 = [(ws, Msg.waiting)])) := by
  constructor
  · intro hv
    simp [createPrivateHandler, hv, send, updateConn, hopen]
  · intro rid hrid hv
    subst hrid
    constructor
    · intro hsome
      simp [createPrivateHandler, hv, hsome, send, updateConn, hopen]
    · intro hnone
      have hrooms : (createPrivateHandler s ws dn (some rid)).1.rooms =
          mapSet s.rooms rid
            { players := [ws], isPrivate := true, createdAt := s.now,
              readyP1 := false, readyP2 := false } := by
        simp [createPrivateHandler, hv, hnone, roomsCreate]
      refine ⟨?_, ?_, ?_⟩
      · rw [hrooms]; exact mapGet_mapSet_self _ _ _
      · intro k hk
        rw [hrooms]; exact mapGet_mapSet_ne _ _ _ _ hk
      · simp [createPrivateHandler, hv, hnone, send, updateConn, roomsCreate, hopen]

/-- Claim C3, counterexample to the claim as stated: "!!!!" is four characters
but matches no [A-Za-z0-9] class; the spec-side format rejects it, yet the
source's length-only check accepts it and createPrivate succeeds with waiting
instead of failing with InvalidId. -/
theorem claim_C3_counterexample :
    specIdFormat "!!!!" = false ∧
    isValidRoomId (some "!!!!") = true ∧
    mapGet (createPrivateHandler emptyState 0 none (some "!!!!")).1.rooms "!!!!" =
      some { players := [0], isPrivate := true, createdAt := 0,
             readyP1 := false, readyP2 := false } ∧
    (createPrivateHandler emptyState 0 none (some "!!!!")).2 = [(0, Msg.waiting)] := by
  refine ⟨by decide, by decide, by decide, by decide⟩

/-- Claim C3, witness: a successful private creation at a concrete fresh id. -/
theorem claim_C3_witness :
    mapGet (createPrivateHandler emptyState 0 none (some "ROOMA")).1.rooms "ROOMA" =
      some { players := [0], isPrivate := true, createdAt := emptyState.now,
             readyP1 := false, readyP2 := false } ∧
    (createPrivateHandler emptyState 0 none (some "ROOMA")).2 = [(0, Msg.waiting)] := by
  have h := ((claim_C3 emptyState 0 none (some "ROOMA") (by decide)).2 "ROOMA" rfl
    (by decide)).2 (by decide)
  exact ⟨h.1, h.2.2⟩

end Signaling

namespace Signaling

/-! ### Claims C5 and C10: joinPrivate -/

/-- A private room whose sole participant is connection 0. -/
def roomSolo : Room :=
  { players := [0], isPrivate := true, createdAt := 0, readyP1 := false, readyP2 := false }

/-- A state containing only roomSolo under id "ROOMA"; every connection is live. -/
def sSolo : ServerState := { emptyState with rooms := [("ROOMA", roomSolo)] }

/-- Claim C5 (confirmed): joinPrivate fails with the InvalidId error on bad id
format (the source's format check), responds roomInvalid when no session with
that id exists, responds roomFull when the session already has 2 participants,
and otherwise appends the connection and sends matchFound to both participants
with isCaller true for exactly one of them — the original creator, who occupies
the first participant slot. -/
theorem claim_C5 (s : ServerState) (ws : ConnId) (dn roomId : Option String)
    (hopen : (s.conns ws).readyOpen = true) :
    (isValidRoomId roomId = false →
      (joinPrivateHandler s ws dn roomId).1.rooms = s.rooms ∧
      (joinPrivateHandler s ws dn roomId).2 = [(ws, Msg.errorMsg "Invalid room ID format")]) ∧
    (∀ rid : String, roomId = some rid → isValidRoomId roomId = true →
      (mapGet s.rooms rid = none →
        (joinPrivateHandler s ws dn roomId).1.rooms = s.rooms ∧
        (joinPrivateHandler s ws dn roomId).2 = [(ws, Msg.roomInvalid rid)]) ∧
      (∀ room : Room, mapGet s.rooms rid = some room → 2 ≤ room.players.length →
        (joinPrivateHandler s ws dn roomId).1.rooms = s.rooms ∧
        (joinPrivateHandler s ws dn roomId).2 = [(ws, Msg.roomFull rid)]) ∧
      (∀ (room : Room) (creator : ConnId), mapGet s.rooms rid = some room →
        room.players = [creator] → creator ≠ ws →
        (s.conns creator).readyOpen = true →
        mapGet (joinPrivateHandler s ws dn roomId).1.rooms rid =
          some { room with players := [creator, ws] } ∧
        (joinPrivateHandler s ws dn roomId).2 =
          [(creator, Msg.matchFound rid true (jsOrStr dn "Player")),
           (ws, Msg.matchFound rid false (jsOrStr ((s.conns creator).displayName) "Opponent"))])) := by
  constructor
  · intro hv
    simp [joinPrivateHandler, hv, send, updateConn, hopen]
  · intro rid hrid hv
    subst hrid
    refine ⟨?_, ?_, ?_⟩
    · intro hnone
      simp [joinPrivateHandler, hv, hnone, send, updateConn, hopen]
    · intro room hroom hfull
      rw [show mapGet s.rooms rid = mapGet (updateConn s ws
        (fun c => { c with displayName := some (jsOrStr dn "Player") })).rooms rid from rfl] at hroom
      simp only [joinPrivateHandler, hv, if_true, hroom]
      rw [if_pos hfull]
      simp [send, updateConn, hopen]
    · intro room creator hroom hp hne hcreator
      have hnotfull : ¬ (2 ≤ room.players.length) := by rw [hp]; simp
      simp only [joinPrivateHandler, hv, if_true,
        show mapGet (updateConn s ws
          (fun c => { c with displayName := some (jsOrStr dn "Player") })).rooms rid =
          some room from hroom]
      rw [if_neg hnotfull]
      simp only [roomsJoin,
        show mapGet (updateConn s ws
          (fun c => { c with displayName := some (jsOrStr dn "Player") })).rooms rid =
          some room from hroom]
      rw [if_neg hnotfull]
      constructor
      · simp only [updateConn_rooms]
        rw [show room.players ++ [ws] = [creator, ws] from by rw [hp]; rfl]
        exact mapGet_mapSet_self _ _ _
      · rw [show room.players ++ [ws] = [creator, ws] from by rw [hp]; rfl]
        rw [matchFoundMsgs_pair _ _ _ _ hne]
        simp [send, updateConn, hne, Ne.symm hne, hopen, hcreator, jsOrStr_player_opponent]

/-- Claim C5, witness: connection 1 joining the solo room of connection 0. -/
theorem claim_C5_witness :
    mapGet (joinPrivateHandler sSolo 1 (some "Bea") (some "ROOMA")).1.rooms "ROOMA" =
      some { roomSolo with players := [0, 1] } ∧
    (joinPrivateHandler sSolo 1 (some "Bea") (some "ROOMA")).2 =
      [(0, Msg.matchFound "ROOMA" true (jsOrStr (some "Bea") "Player")),
       (1, Msg.matchFound "ROOMA" false (jsOrStr ((sSolo.conns 0).displayName) "Opponent"))] :=
  ((claim_C5 sSolo 1 (some "Bea") (some "ROOMA") (by decide)).2 "ROOMA" rfl
    (by decide)).2.2 roomSolo 0 (by decide) rfl (by decide) (by decide)

/-- Claim C10 (confirmed): joinPrivate never checks that the joining connection
differs from the existing participant: the sole participant of a session can
join its own session, leaving both participant slots referencing the same
connection (and receiving both matchFound messages itself, with opponentName
falling back to "Opponent" because no player differs from it). -/
theorem claim_C10 (s : ServerState) (rid : String) (room : Room) (c : ConnId)
    (dn : Option String)
    (hroom : mapGet s.rooms rid = some room)
    (hp : room.players = [c])
    (hv : isValidRoomId (some rid) = true)
    (hopen : (s.conns c).readyOpen = true) :
    mapGet (joinPrivateHandler s c dn (some rid)).1.rooms rid =
      some { room with players := [c, c] } ∧
    (joinPrivateHandler s c dn (some rid)).2 =
      [(c, Msg.matchFound rid true "Opponent"), (c, Msg.matchFound rid false "Opponent")] := by
  have hnotfull : ¬ (2 ≤ room.players.length) := by rw [hp]; simp
  simp only [joinPrivateHandler, hv, if_true,
    show mapGet (updateConn s c
      (fun cs => { cs with displayName := some (jsOrStr dn "Player") })).rooms rid =
      some room from hroom]
  rw [if_neg hnotfull]
  simp only [roomsJoin,
    show mapGet (updateConn s c
      (fun cs => { cs with displayName := some (jsOrStr dn "Player") })).rooms rid =
      some room from hroom]
  rw [if_neg hnotfull]
  constructor
  · simp only [updateConn_rooms]
    rw [show room.players ++ [c] = [c, c] from by rw [hp]; rfl]
    exact mapGet_mapSet_self _ _ _
  · rw [show room.players ++ [c] = [c, c] from by rw [hp]; rfl]
    rw [matchFoundMsgs_same]
    simp [send, updateConn, hopen]

/-- Claim C10, witness: connection 0 joining its own solo room "ROOMA". -/
theorem claim_C10_witness :
    mapGet (joinPrivateHandler sSolo 0 none (some "ROOMA")).1.rooms "ROOMA" =
      some { roomSolo with players := [0, 0] } ∧
    (joinPrivateHandler sSolo 0 none (some "ROOMA")).2 =
      [(0, Msg.matchFound "ROOMA" true "Opponent"), (0, Msg.matchFound "ROOMA" false "Opponent")] :=
  claim_C10 sSolo "ROOMA" roomSolo 0 none (by decide) rfl (by decide) (by decide)

end Signaling

namespace Signaling

/-! ### Claim C6: disconnect -/

/-- A state with room "ROOMAB" of [0, 1] and both its connections carrying
roomId "ROOMAB"; every connection is live. -/
def sC6 : ServerState :=
  { emptyState with
      rooms := [("ROOMAB", roomAB)]
      conns := fun i => if i ≤ 1 then { connOpen with roomId := some "ROOMAB" } else connOpen }

/-- Claim C6 (confirmed): when one participant of a two-participant session
disconnects, the other participant — exactly when its transport is live —
receives a single opponentDisconnected, and the session is removed, so that a
subsequent joinPrivate answers roomInvalid, a relay naming the id delivers
nothing, and a rematch request naming the id is a complete no-op. -/
theorem claim_C6 (s : ServerState) (rid : String) (room : Room) (a b : ConnId)
    (hkeys : (s.rooms.map Prod.fst).Nodup)
    (hroom : mapGet s.rooms rid = some room)
    (hp : room.players = [a, b]) (hab : a ≠ b)
    (hconn : (s.conns a).roomId = some rid) (hrid : rid ≠ "")
    (hv : isValidRoomId (some rid) = true) :
    ((handleDisconnect s a).2 =
      if (s.conns b).readyOpen then [(b, Msg.opponentDisconnected)] else []) ∧
    mapGet (handleDisconnect s a).1.rooms rid = none ∧
    (∀ (c : ConnId) (dn : Option String),
      (joinPrivateHandler (handleDisconnect s a).1 c dn (some rid)).1.rooms =
        (handleDisconnect s a).1.rooms ∧
      (joinPrivateHandler (handleDisconnect s a).1 c dn (some rid)).2 =
        (if (s.conns c).readyOpen then [(c, Msg.roomInvalid rid)] else [])) ∧
    (∀ (ws : ConnId) (d : SignalData), d.roomId = rid →
      relaySignal (handleDisconnect s a).1 ws d = []) ∧
    (∀ (ws : ConnId) (reqId : Option String) (digits : List Char),
      handleNewGameRequest (handleDisconnect s a).1 ws rid reqId digits =
        ((handleDisconnect s a).1, [])) := by
  have hba : (b != a) = true := by simp [Ne.symm hab]
  have hdis : handleDisconnect s a =
      (roomsRemove s rid,
        if (s.conns b).readyOpen then [(b, Msg.opponentDisconnected)] else []) := by
    simp only [handleDisconnect, hconn]
    rw [if_neg hrid]
    simp only [hroom, hp, List.find?, bne_self_eq_false, hba]
    by_cases hb : (s.conns b).readyOpen
    · simp [send, hb]
    · simp [send, hb]
  have hnone : mapGet (handleDisconnect s a).1.rooms rid = none := by
    rw [hdis]
    exact mapGet_mapDelete_self s.rooms rid hkeys
  refine ⟨by rw [hdis], hnone, ?_, ?_, ?_⟩
  · intro c dn
    constructor
    · simp [joinPrivateHandler, hv, hnone]
    · have hcopen : ((handleDisconnect s a).1.conns c).readyOpen = (s.conns c).readyOpen := by
        rw [hdis]
        rfl
      simp [joinPrivateHandler, hv, hnone, send, updateConn, hcopen]
  · intro ws d hd
    have hnone2 : mapGet (handleDisconnect s a).1.rooms d.roomId = none := by
      rw [hd]; exact hnone
    simp [relaySignal, getOpponent, hnone2]
  · intro ws reqId digits
    simp [handleNewGameRequest, hnone]

/-- Claim C6, witness: disconnecting connection 0 of "ROOMAB" in a concrete
state; connection 1 is live and receives opponentDisconnected, and the room is
gone. -/
theorem claim_C6_witness :
    ((handleDisconnect sC6 0).2 =
      if (sC6.conns 1).readyOpen then [(1, Msg.opponentDisconnected)] else []) ∧
    mapGet (handleDisconnect sC6 0).1.rooms "ROOMAB" = none := by
  have h := claim_C6 sC6 "ROOMAB" roomAB 0 1 (by decide) (by decide) rfl (by decide)
    (by decide) (by decide) (by decide)
  exact ⟨h.1, h.2.1⟩

/-! ### Claim C7: the reaper -/

/-- Claim C7 (confirmed): one sweep of the cleanup interval removes precisely
the sessions for which no participant's transport is live or whose age
now - createdAt exceeds the 24-hour maxAge; a session with at least one live
participant that is at most maxAge old is kept with its record unchanged. -/
theorem claim_C7 (s : ServerState) (now : Nat) (rid : String) (room : Room)
    (hkeys : (s.rooms.map Prod.fst).Nodup)
    (hroom : mapGet s.rooms rid = some room) :
    mapGet (cleanupSweep s now).rooms rid =
      if (∀ p ∈ room.players, (s.conns p).readyOpen = false) ∨ maxAge < now - room.createdAt
      then none else some room := by
  have h := mapGet_filter s.rooms rid room
    (fun e => !(!(e.2.players.any (fun p => (s.conns p).readyOpen)) ||
      decide (maxAge < now - e.2.createdAt))) hkeys hroom
  have hr : (cleanupSweep s now).rooms = s.rooms.filter
    (fun e => !(!(e.2.players.any (fun p => (s.conns p).readyOpen)) ||
      decide (maxAge < now - e.2.createdAt))) := rfl
  have hpred : (!(!(room.players.any (fun p => (s.conns p).readyOpen)) ||
      decide (maxAge < now - room.createdAt))) = true ↔
      ((∃ p ∈ room.players, (s.conns p).readyOpen = true) ∧
        ¬ (maxAge < now - room.createdAt)) := by
    simp [List.any_eq_true]
  rw [hr, h]
  by_cases hc : (∀ p ∈ room.players, (s.conns p).readyOpen = false) ∨
      maxAge < now - room.createdAt
  · rw [if_pos hc, if_neg]
    rw [hpred]
    rintro ⟨⟨p, hpmem, hpopen⟩, hage⟩
    rcases hc with hall | hage2
    · rw [hall p hpmem] at hpopen
      exact Bool.false_ne_true hpopen
    · exact hage hage2
  · rw [if_neg hc, if_pos]
    rw [hpred]
    push_neg at hc
    obtain ⟨hlive, hage⟩ := hc
    obtain ⟨p, hpmem, hpopen⟩ := hlive
    exact ⟨⟨p, hpmem, by simpa using hpopen⟩, not_lt.mpr hage⟩

/-- Claim C7, witness: a young session with live participants survives a sweep
unchanged. -/
theorem claim_C7_witness :
    mapGet (cleanupSweep sC2 1000).rooms "ROOMAB" = some roomAB := by
  have h := claim_C7 sC2 1000 "ROOMAB" roomAB (by decide) (by decide)
  rw [h, if_neg (by decide)]

/-! ### Claim C8: the id generator -/

theorem toUpperChar_base36_mem : ∀ c ∈ base36Chars, toUpperChar c ∈ alnumChars := by decide

/-- Claim C8 (amended): for every value of the random source (given by its
base-36 fractional digit list), the generated id consists only of [A-Za-z0-9]
characters (in fact digits and uppercase letters), but its length is
min 8 (number of digits) — NOT always 4 to 12: a random value with fewer than 4
base-36 fractional digits (such as 0 or 1/2) yields an id of fewer than 4
characters, even the empty string.  The same generator mints the rematch
requestId when the caller supplies none (handleNewGameRequest). -/
theorem claim_C8 (digits : List Char) (h : ∀ c ∈ digits, c ∈ base36Chars) :
    (generateRoomId digits).length = min 8 digits.length ∧
    (∀ c ∈ (generateRoomId digits).data, c ∈ alnumChars) := by
  constructor
  · by_cases hd : digits = []
    · subst hd; decide
    · show (((randToString36 digits).drop 2).take 8 |>.map toUpperChar).length =
        min 8 digits.length
      rw [randToString36, if_neg hd]
      simp [List.length_take]
  · intro c hc
    by_cases hd : digits = []
    · subst hd
      simp [generateRoomId, randToString36] at hc
    · rw [show (generateRoomId digits).data = (digits.take 8).map toUpperChar from by
        simp [generateRoomId, randToString36, hd]] at hc
      obtain ⟨d, hdmem, rfl⟩ := List.mem_map.mp hc
      exact toUpperChar_base36_mem d (h d (List.take_subset 8 digits hdmem))

/-- Claim C8, counterexample to the claim as stated: the random value 0 prints
as "0", whose substring(2, 10) is empty — the generated id is "" (0 characters);
the random value 1/2 prints as "0.i", yielding the 1-character id "I".  Both
fall outside the required 4-12 characters. -/
theorem claim_C8_counterexample :
    generateRoomId [] = "" ∧ (generateRoomId []).length = 0 ∧
    generateRoomId ['i'] = "I" ∧ ¬ (4 ≤ (generateRoomId ['i']).length) := by
  refine ⟨by decide, by decide, by decide, by decide⟩

/-- Claim C8, witness: a 10-digit random value yields an 8-character id. -/
theorem claim_C8_witness :
    (generateRoomId ['a', 'b', 'c', 'd', 'e', 'f', 'g', 'h', 'i', 'j']).length =
      min 8 (['a', 'b', 'c', 'd', 'e', 'f', 'g', 'h', 'i', 'j'] : List Char).length :=
  (claim_C8 ['a', 'b', 'c', 'd', 'e', 'f', 'g', 'h', 'i', 'j'] (by decide)).1

end Signaling

namespace Signaling

/-! ### Claim C4: the rematch coordinator -/

/-- Claim C4 (confirmed): in a two-participant session in the idle state, a
first requestRematch by one participant delivers exactly one
opponentRequestedNewGame (carrying the request id) to the opponent when live,
and moves the session to OneReady; a repeated call by the same participant
leaves the session table unchanged; once the other participant also calls, both
participants (when live) receive exactly one startNewGame carrying the
completing call's requestId, both ready flags reset to false, both connections'
lastNewGameReqId markers are cleared, and the global completed-games counter
increments by one. -/
theorem claim_C4 (s : ServerState) (rid : String) (room : Room) (a b : ConnId)
    (reqId1 : Option String) (digits1 : List Char)
    (hroom : mapGet s.rooms rid = some room)
    (hp : room.players = [a, b]) (hab : a ≠ b)
    (hidle2 : room.readyP2 = false) :
    ((handleNewGameRequest s a rid reqId1 digits1).2 =
      if (s.conns b).readyOpen then
        [(b, Msg.opponentRequestedNewGame (jsOrStr reqId1 (generateRoomId digits1)))]
      else []) ∧
    mapGet (handleNewGameRequest s a rid reqId1 digits1).1.rooms rid =
      some { room with readyP1 := true } ∧
    (∀ (reqId2 : Option String) (digits2 : List Char),
      (handleNewGameRequest (handleNewGameRequest s a rid reqId1 digits1).1 a rid
          reqId2 digits2).1.rooms =
        (handleNewGameRequest s a rid reqId1 digits1).1.rooms) ∧
    (∀ (reqId2 : Option String) (digits2 : List Char),
      (handleNewGameRequest (handleNewGameRequest s a rid reqId1 digits1).1 b rid
          reqId2 digits2).2 =
        (if (s.conns a).readyOpen then
            [(a, Msg.startNewGame (jsOrStr reqId2 (generateRoomId digits2)))] else []) ++
        (if (s.conns b).readyOpen then
            [(b, Msg.startNewGame (jsOrStr reqId2 (generateRoomId digits2)))] else []) ∧
      mapGet (handleNewGameRequest (handleNewGameRequest s a rid reqId1 digits1).1 b rid
          reqId2 digits2).1.rooms rid =
        some { room with readyP1 := false, readyP2 := false } ∧
      ((handleNewGameRequest (handleNewGameRequest s a rid reqId1 digits1).1 b rid
          reqId2 digits2).1.conns a).lastNewGameReqId = none ∧
      ((handleNewGameRequest (handleNewGameRequest s a rid reqId1 digits1).1 b rid
          reqId2 digits2).1.conns b).lastNewGameReqId = none ∧
      (handleNewGameRequest (handleNewGameRequest s a rid reqId1 digits1).1 b rid
          reqId2 digits2).1.totalGamesPlayed = s.totalGamesPlayed + 1) := by
  have hba : (b != a) = true := by simp [Ne.symm hab]
  have habe : (a == b) = false := by simp [hab]
  have hlen : ¬ (room.players.length ≠ 2) := by rw [hp]; simp
  have hidx_a : jsIndexOf room.players a = some 0 := by
    rw [hp]; simp [jsIndexOf, indexOfAux]
  have hidx_b : jsIndexOf room.players b = some 1 := by
    rw [hp]; simp [jsIndexOf, indexOfAux, habe]
  have hstep1 : handleNewGameRequest s a rid reqId1 digits1 =
      (updateConn { s with rooms := mapSet s.rooms rid { room with readyP1 := true } } a
        (fun c => { c with
          lastNewGameReqId := some (jsOrStr reqId1 (generateRoomId digits1)) }),
       if (s.conns b).readyOpen then
         [(b, Msg.opponentRequestedNewGame (jsOrStr reqId1 (generateRoomId digits1)))]
       else []) := by
    simp only [handleNewGameRequest, hroom]
    rw [if_neg hlen, hidx_a]
    simp only [beq_self_eq_true, if_true]
    rw [if_neg (by simp [hidle2])]
    simp only [getOpponent, updateConn_rooms, mapGet_mapSet_self, hp, List.find?,
      bne_self_eq_false, hba]
    by_cases hb : (s.conns b).readyOpen
    · simp [send, updateConn, hb, Ne.symm hab]
    · simp [send, updateConn, hb, Ne.symm hab]
  have hr1get : mapGet (mapSet s.rooms rid { room with readyP1 := true }) rid =
      some { room with readyP1 := true } := mapGet_mapSet_self _ _ _
  refine ⟨by rw [hstep1], by rw [hstep1]; exact hr1get, ?_, ?_⟩
  · intro reqId2 digits2
    rw [hstep1]
    simp only [handleNewGameRequest, updateConn_rooms, hr1get]
    rw [if_neg hlen, hidx_a]
    simp only [beq_self_eq_true, if_true]
    rw [if_neg (by simp [hidle2])]
    simp only [updateConn_rooms]
    exact mapSet_eq_self _ _ _ hr1get
  · intro reqId2 digits2
    rw [hstep1]
    simp only [handleNewGameRequest, updateConn_rooms, hr1get]
    rw [if_neg hlen, hidx_b]
    simp only [beq_self_eq_true, if_true]
    rw [show ((1 : Nat) == 0) = false from rfl]
    simp only [Bool.false_eq_true, if_false]
    rw [if_pos (by simp)]
    simp only [broadcastToRoom, updateConn_rooms, mapGet_mapSet_self, hp, clearReqIds,
      List.foldl, sendEach]
    refine ⟨?_, ?_, ?_, ?_, ?_⟩
    · by_cases ha : (s.conns a).readyOpen <;> by_cases hb : (s.conns b).readyOpen <;>
        simp [send, updateConn, ha, hb, hab, Ne.symm hab]
    · simp only [updateConn_rooms]
    · simp [updateConn, hab, Ne.symm hab]
    · simp [updateConn, hab, Ne.symm hab]
    · simp [updateConn]

end Signaling

namespace Signaling

/-- Claim C4, witness: a concrete rematch round in room "ROOMAB" of [0, 1]:
the first request notifies the live opponent, moves the room to OneReady, and
the completing request bumps the completed-games counter. -/
theorem claim_C4_witness :
    ((handleNewGameRequest sC2 0 "ROOMAB" (some "REQ1") []).2 =
      if (sC2.conns 1).readyOpen then
        [(1, Msg.opponentRequestedNewGame (jsOrStr (some "REQ1") (generateRoomId [])))]
      else []) ∧
    mapGet (handleNewGameRequest sC2 0 "ROOMAB" (some "REQ1") []).1.rooms "ROOMAB" =
      some { roomAB with readyP1 := true } ∧
    (handleNewGameRequest (handleNewGameRequest sC2 0 "ROOMAB" (some "REQ1") []).1 1 "ROOMAB"
        (some "REQ2") []).1.totalGamesPlayed = sC2.totalGamesPlayed + 1 := by
  have h := claim_C4 sC2 "ROOMAB" roomAB 0 1 (some "REQ1") [] (by decide) rfl (by decide) rfl
  exact ⟨h.1, h.2.1, (h.2.2.2 (some "REQ2") []).2.2.2.2⟩

end Signaling
